import Mathlib

/-!
Verification development for the storefront front-end's root route
(`app/root.tsx`, here `src/unnamed/part_001`) and the modal primitive
(`NcModal`, here `src/unnamed/part_000`).

The source is shallowly embedded: promises are modelled by their eventual
settlement (`Handle α := Except String α`, error = rejection reason),
fallible loaders by `Except LoaderErr`, and the issue/join/return ordering
of the root loader by an explicit event trace transcribed from the
statement order of the code.  External service payloads (header menu,
footer menu, cart, Okendo bootstrap data, shop analytics) are opaque to
the loader, so they are carried as plain strings.
-/

deriving instance DecidableEq for Except

namespace ShopifyFrontend

/-- Language/region pair (`storefront.i18n` shape). -/
structure Locale where
  language : String
  country : String
deriving DecidableEq, Repr

/-- Modelled from the spec: `DEFAULT_LOCALE` from `./lib/utils`, a file not in
the visible sources.  The spec calls it "a fixed default locale constant", "the
default language/region pair"; its concrete value is irrelevant to every
theorem below. -/
def DEFAULT_LOCALE : Locale := ⟨"EN", "US"⟩

/-- Modelled from the spec: the locale-resolution mechanism that populates the
storefront client's required `i18n` property — the client construction is not
among the visible sources.  Spec §4.1 step 1: "Determine locale from `context`
(language/region); if unavailable, use a fixed default locale constant." -/
def resolveLocale (available : Option Locale) : Locale :=
  available.getD DEFAULT_LOCALE

/-- Eventual settlement of a promise: `.ok` = fulfilled, `.error` = rejected
(with the rejection reason). -/
abbrev Handle (α : Type) := Except String α

/-- Opaque payload of the Okendo provider bootstrap call. -/
abbrev OkendoData := String

/-- Opaque payload of `getShopAnalytics` (synchronous library call). -/
abbrev ShopAnalytics := String

/-- Opaque payload of `cart.get()` (null when there is no cart). -/
abbrev Cart := String

/-- Opaque payload of the HEADER_QUERY fetch. -/
abbrev HeaderData := String

/-- Opaque payload of the FOOTER_QUERY fetch. -/
abbrev FooterData := String

/-- Opaque `shop` object selected by LAYOUT_QUERY (id, name, brand, ...);
the loader only passes it through whole. -/
abbrev Shop := String

/-- Result object of the LAYOUT_QUERY: `{ shop: ... }`. -/
structure LayoutData where
  shop : Shop
deriving DecidableEq, Repr

/-- Result of `seoPayload.root({shop, url})`. -/
structure SeoPayload where
  shop : Shop
  url : String
deriving DecidableEq, Repr

/-- Modelled from the spec: `seoPayload.root` from `~/lib/seo.server`, a file
not in the visible sources.  The spec says only that the SEO payload is a
critical slot "computation that derives from" the layout/shop metadata and the
request URL, so it is modelled as the pairing of its two inputs. -/
def seoRoot (shop : Shop) (url : String) : SeoPayload := ⟨shop, url⟩

/-- Environment values read by the root loader. -/
structure Env where
  PUBLIC_STORE_DOMAIN : String
  PUBLIC_SHOPIFY_STORE_DOMAIN : String
  PUBLIC_STORE_CDN_STATIC_URL : String
  PUBLIC_IMAGE_FORMAT_FOR_PRODUCT_OPTION : String
  PUBLIC_OKENDO_SUBSCRIBER_ID : String
  PUBLIC_STOREFRONT_ID : String
  PUBLIC_CHECKOUT_DOMAIN : String
  PUBLIC_STOREFRONT_API_TOKEN : String
deriving DecidableEq, Repr

/-- Failure of the root loader for a whole request. -/
inductive LoaderErr where
  | fatalFetch (msg : String)
  | invariantViolation (msg : String)
deriving DecidableEq, Repr

/-- Capability handles the root loader receives (`AppLoadContext`).  Each
external asynchronous call is represented by the settlement its handle will
eventually have.  `i18n` is a required, always-present property of the
storefront client; the resolution that populates it (locale from context,
else `DEFAULT_LOCALE`) is `resolveLocale`, modelled from the spec because the
client construction is outside the visible sources. -/
structure AppLoadContext where
  env : Env
  i18n : Locale
  layoutQueryOutcome : Handle (Option LayoutData)
  okendoOutcome : Handle OkendoData
  isLoggedInOutcome : Handle Bool
  cartOutcome : Handle (Option Cart)
  headerOutcome : Handle HeaderData
  footerOutcome : Handle FooterData
  shopAnalytics : ShopAnalytics
deriving DecidableEq, Repr

/-- The `consent` record assembled by `loadCriticalData`. -/
structure Consent where
  checkoutDomain : String
  storefrontAccessToken : String
  withPrivacyBanner : Bool
deriving DecidableEq, Repr

/-- `getLayoutData`: awaits the LAYOUT_QUERY fetch, then
`invariant(data, 'No data returned from Shopify API')` before returning it.
A rejected fetch propagates; a null result raises the assertion failure. -/
def getLayoutData (c : AppLoadContext) : Except LoaderErr LayoutData :=
  match c.layoutQueryOutcome with
  | .error e => .error (.fatalFetch e)
  | .ok none => .error (.invariantViolation "No data returned from Shopify API")
  | .ok (some data) => .ok data

/-- Settlement of `getOkendoProviderData({context, subscriberId})`, the second
element of the critical `Promise.all`; a rejection fails the join. -/
def okendoCritical (c : AppLoadContext) : Except LoaderErr OkendoData :=
  match c.okendoOutcome with
  | .error e => .error (.fatalFetch e)
  | .ok d => .ok d

/-- Critical bundle returned by `loadCriticalData`. -/
structure CriticalData where
  layout : LayoutData
  seo : SeoPayload
  shop : ShopAnalytics
  consent : Consent
  selectedLocale : Locale
  okendoProviderData : OkendoData
deriving DecidableEq, Repr

/-- `loadCriticalData`: `await Promise.all([getLayoutData, getOkendoProviderData])`
(a join — any rejection fails it; which rejection reason wins a double failure
is timing-dependent in the source and is not relied on below), then assembles
the critical bundle.  `selectedLocale: storefront.i18n` is a pass-through with
no defaulting. -/
def loadCriticalData (c : AppLoadContext) (requestUrl : String) :
    Except LoaderErr CriticalData := do
  let layout ← getLayoutData c
  let okendoProviderData ← okendoCritical c
  let seo := seoRoot layout.shop requestUrl
  pure
    { layout := layout
      seo := seo
      shop := c.shopAnalytics
      consent :=
        { checkoutDomain := c.env.PUBLIC_CHECKOUT_DOMAIN
          storefrontAccessToken := c.env.PUBLIC_STOREFRONT_API_TOKEN
          withPrivacyBanner := true }
      selectedLocale := c.i18n
      okendoProviderData := okendoProviderData }

/-- Deferred bundle returned by `loadDeferredData`: the raw promise handles,
exactly as issued (the source attaches no `.catch` to any of them).
`isLoggedIn` and `isLoggedInPromise` are the same handle. -/
structure DeferredData where
  isLoggedIn : Handle Bool
  isLoggedInPromise : Handle Bool
  cart : Handle (Option Cart)
  headerPromise : Handle HeaderData
  footerPromise : Handle FooterData
deriving DecidableEq, Repr

/-- `loadDeferredData`: issues `customerAccount.isLoggedIn()`, destructures
`const {language, country} = storefront.i18n` (these parameterise the
HEADER_QUERY and FOOTER_QUERY variables of the external fetches, whose
settlements `headerOutcome`/`footerOutcome` are), issues those fetches and
`cart.get()`, and returns the handles unmodified — no rejection wrapping of
any kind appears in the source. -/
def loadDeferredData (c : AppLoadContext) : DeferredData :=
  let isLoggedInPromise := c.isLoggedInOutcome
  let language := c.i18n.language
  let country := c.i18n.country
  let headerPromise := c.headerOutcome
  let footerPromise := c.footerOutcome
  { isLoggedIn := isLoggedInPromise
    isLoggedInPromise := isLoggedInPromise
    cart := c.cartOutcome
    headerPromise := headerPromise
    footerPromise := footerPromise }

/-- The `PageData` record produced by the root loader's `defer({...})` call,
fields in source order: the deferred spread, the critical spread, then the
environment pass-through fields. -/
structure PageData where
  isLoggedIn : Handle Bool
  isLoggedInPromise : Handle Bool
  cart : Handle (Option Cart)
  headerPromise : Handle HeaderData
  footerPromise : Handle FooterData
  layout : LayoutData
  seo : SeoPayload
  shop : ShopAnalytics
  consent : Consent
  selectedLocale : Locale
  okendoProviderData : OkendoData
  env : Env
  publicStoreDomain : String
  publicStoreSubdomain : String
  publicStoreCdnStaticUrl : String
  publicImageFormatForProductOption : String
  publicOkendoSubcriberId : String
deriving DecidableEq, Repr

/-- The root `loader` (`buildPageData` in the spec): calls `loadDeferredData`
first (without awaiting it), awaits `loadCriticalData`, and returns
`defer({...deferredData, ...criticalData, env, ...pass-through})`.  A failed
critical load fails the whole request: no `PageData` is produced. -/
def loader (c : AppLoadContext) (requestUrl : String) :
    Except LoaderErr PageData := do
  let deferredData := loadDeferredData c
  let criticalData ← loadCriticalData c requestUrl
  pure
    { isLoggedIn := deferredData.isLoggedIn
      isLoggedInPromise := deferredData.isLoggedInPromise
      cart := deferredData.cart
      headerPromise := deferredData.headerPromise
      footerPromise := deferredData.footerPromise
      layout := criticalData.layout
      seo := criticalData.seo
      shop := criticalData.shop
      consent := criticalData.consent
      selectedLocale := criticalData.selectedLocale
      okendoProviderData := criticalData.okendoProviderData
      env := c.env
      publicStoreDomain := c.env.PUBLIC_STORE_DOMAIN
      publicStoreSubdomain := c.env.PUBLIC_SHOPIFY_STORE_DOMAIN
      publicStoreCdnStaticUrl := c.env.PUBLIC_STORE_CDN_STATIC_URL
      publicImageFormatForProductOption :=
        c.env.PUBLIC_IMAGE_FORMAT_FOR_PRODUCT_OPTION
      publicOkendoSubcriberId := c.env.PUBLIC_OKENDO_SUBSCRIBER_ID }

/-- `MainLayout`'s locale computation:
`data?.selectedLocale ?? DEFAULT_LOCALE`, where `data` is the root route's
loader data (absent e.g. when rendering the error boundary; when present its
`selectedLocale` is always set, so the fallback fires only on absent data). -/
def mainLayoutLocale (data : Option PageData) : Locale :=
  ((data.map PageData.selectedLocale).getD DEFAULT_LOCALE)

/-- The `FormMethod` union of the routing layer (uppercase HTTP methods). -/
inductive FormMethod where
  | GET | POST | PUT | PATCH | DELETE
deriving DecidableEq, Repr

/-- Navigation event seen by `shouldRevalidate`.  The source destructures only
`formMethod`, `currentUrl` and `nextUrl`; `explicitRefresh` is the spec's
fourth event field ("a flag indicating the caller explicitly requested a
refresh"), carried here so claims about it are expressible. -/
structure RevalidateArgs where
  formMethod : Option FormMethod
  currentUrl : String
  nextUrl : String
  explicitRefresh : Bool
deriving DecidableEq, Repr

/-- `shouldRevalidate` from the source: `true` when a non-GET form method
triggered the navigation; else `true` when `currentUrl.toString()` equals
`nextUrl.toString()`; else `false`. -/
def shouldRevalidate (a : RevalidateArgs) : Bool :=
  if a.formMethod.isSome && (a.formMethod != some FormMethod.GET) then true
  else if a.currentUrl = a.nextUrl then true
  else false

/-- Spec §4.1 wording of the method test: "a pure-read method". -/
def isPureRead (m : FormMethod) : Bool := m == FormMethod.GET

/-- The revalidation decision exactly as the spec words it, for comparison
with the source's `shouldRevalidate`: three rules in order, first match wins —
(1) a triggering method is present and is not a pure-read method;
(2) the from-URL and to-URL are textually identical; (3) otherwise `false`. -/
def specShouldRevalidate (a : RevalidateArgs) : Bool :=
  match a.formMethod with
  | some m => if ¬ isPureRead m then true
              else if a.currentUrl = a.nextUrl then true else false
  | none => if a.currentUrl = a.nextUrl then true else false

/-- Named fetch slots of the root loader. -/
inductive Slot where
  | isLoggedIn | header | footer | cart | layout | okendo
deriving DecidableEq, BEq, Repr

/-- Observable scheduling events of one `loader` execution. -/
inductive Ev where
  | issueDeferred (s : Slot)
  | issueCritical (s : Slot)
  | criticalJoin
  | returnPageData
deriving DecidableEq, BEq, Repr

/-- Event trace of `loader`, transcribed from the statement order of the
source: `loadDeferredData(args)` runs first (issuing, in order,
`customerAccount.isLoggedIn()`, the HEADER_QUERY fetch, the FOOTER_QUERY
fetch and `cart.get()`), then `await loadCriticalData(args)` issues the
LAYOUT_QUERY fetch and the Okendo bootstrap fetch and joins them
(`await Promise.all`), and finally `defer({...})` returns the page data. -/
def loaderTrace : List Ev :=
  [ .issueDeferred .isLoggedIn
  , .issueDeferred .header
  , .issueDeferred .footer
  , .issueDeferred .cart
  , .issueCritical .layout
  , .issueCritical .okendo
  , .criticalJoin
  , .returnPageData ]

/-- Position of an event in the loader trace (each event occurs once). -/
def evIndex (e : Ev) : Nat := loaderTrace.indexOf e

/-- State of the `NcModal` component: the caller-supplied `isOpenProp`
override and the internal `isOpen` visibility boolean. -/
structure ModalState where
  isOpenProp : Option Bool
  isOpen : Bool
deriving DecidableEq, Repr, Fintype

/-- Mount: `useState(!!isOpenProp)` — visible iff the override is `some true`. -/
def initModal (p : Option Bool) : ModalState := ⟨p, p.getD false⟩

/-- `closeModal`: `setIsOpen(false)` only when `typeof isOpenProp !== 'boolean'`
(the `onCloseModal` callback is external and touches no modal state). -/
def closeModal (s : ModalState) : ModalState :=
  if s.isOpenProp.isSome then s else { s with isOpen := false }

/-- `openModal`: `setIsOpen(true)` only when `typeof isOpenProp !== 'boolean'`. -/
def openModal (s : ModalState) : ModalState :=
  if s.isOpenProp.isSome then s else { s with isOpen := true }

/-- The `useEffect(() => setIsOpen(!!isOpenProp), [isOpenProp])` hook: when the
override prop changes, the visibility is resynchronised to it. -/
def setIsOpenProp (p : Option Bool) (s : ModalState) : ModalState :=
  if p = s.isOpenProp then s else ⟨p, p.getD false⟩

/-- Interactions that can change the modal's state. -/
inductive ModalOp where
  | openM | closeM | setProp (p : Option Bool)
deriving DecidableEq, Repr, Fintype

/-- One interaction step on the modal state. -/
def modalStep (s : ModalState) : ModalOp → ModalState
  | .openM => openModal s
  | .closeM => closeModal s
  | .setProp p => setIsOpenProp p s

/-- State after mounting with override `p` and performing `ops` in order. -/
def runModal (p : Option Bool) (ops : List ModalOp) : ModalState :=
  ops.foldl modalStep (initModal p)

/-- Shared concrete context: every fetch settles successfully, a locale is
present, and all environment fields are populated. -/
def ctxBase : AppLoadContext :=
  { env :=
      { PUBLIC_STORE_DOMAIN := "store.example.com"
        PUBLIC_SHOPIFY_STORE_DOMAIN := "example.myshopify.com"
        PUBLIC_STORE_CDN_STATIC_URL := "https://cdn.example.com/static"
        PUBLIC_IMAGE_FORMAT_FOR_PRODUCT_OPTION := "webp"
        PUBLIC_OKENDO_SUBSCRIBER_ID := "okendo-sub-1"
        PUBLIC_STOREFRONT_ID := "sf-1"
        PUBLIC_CHECKOUT_DOMAIN := "checkout.example.com"
        PUBLIC_STOREFRONT_API_TOKEN := "tok-123" }
    i18n := ⟨"FR", "CA"⟩
    layoutQueryOutcome := .ok (some ⟨"shop-payload"⟩)
    okendoOutcome := .ok "okendo-payload"
    isLoggedInOutcome := .ok true
    cartOutcome := .ok (some "cart-payload")
    headerOutcome := .ok "header-payload"
    footerOutcome := .ok "footer-payload"
    shopAnalytics := "analytics-payload" }

/-- Usability of the critical fetch results, per the source's failure policy:
the LAYOUT_QUERY fetch fulfilled with non-null data and the Okendo bootstrap
fetch fulfilled. -/
def criticalUsable (c : AppLoadContext) : Bool :=
  (match c.layoutQueryOutcome with
   | .ok (some _) => true
   | _ => false) && c.okendoOutcome.isOk

/-- Claim C3: for every navigation event, `shouldRevalidate` returns exactly
the result of the spec's three-rule first-match decision — `true` when a
triggering method is present and is not a pure-read method, else `true` when
the from-URL and to-URL are textually identical, else `false`. -/
theorem shouldRevalidate_matches_spec (a : RevalidateArgs) :
    shouldRevalidate a = specShouldRevalidate a := by
  rcases a with ⟨fm, cu, nu, er⟩
  cases fm with
  | none => simp [shouldRevalidate, specShouldRevalidate]
  | some m =>
      cases m <;>
        simp [shouldRevalidate, specShouldRevalidate, isPureRead]

/-- Claim C8: `shouldRevalidate` is deterministic in its event inputs — any
two calls whose events agree on every field return equal booleans.  In this
embedding it is a plain function of the event alone (no state appears in its
signature), which is the shallow form of "consults no ambient or global state
and changes no observable state". -/
theorem shouldRevalidate_deterministic (a b : RevalidateArgs)
    (h1 : a.formMethod = b.formMethod) (h2 : a.currentUrl = b.currentUrl)
    (h3 : a.nextUrl = b.nextUrl) (h4 : a.explicitRefresh = b.explicitRefresh) :
    shouldRevalidate a = shouldRevalidate b := by
  rcases a with ⟨af, ac, an, ae⟩
  rcases b with ⟨bf, bc, bn, be⟩
  cases h1; cases h2; cases h3; cases h4
  rfl

/-- Witness for C8 at a concrete event. -/
theorem shouldRevalidate_deterministic_witness :
    shouldRevalidate ⟨some FormMethod.POST, "/cart", "/cart", false⟩ =
      shouldRevalidate ⟨some FormMethod.POST, "/cart", "/cart", false⟩ :=
  shouldRevalidate_deterministic _ _ rfl rfl rfl rfl

/-- Claim C10: the explicit-refresh flag is never consulted — two navigation
events agreeing on method, from-URL and to-URL but differing in the flag get
the same decision. -/
theorem shouldRevalidate_ignores_refresh_flag (a b : RevalidateArgs)
    (h1 : a.formMethod = b.formMethod) (h2 : a.currentUrl = b.currentUrl)
    (h3 : a.nextUrl = b.nextUrl) :
    shouldRevalidate a = shouldRevalidate b := by
  rcases a with ⟨af, ac, an, ae⟩
  rcases b with ⟨bf, bc, bn, be⟩
  cases h1; cases h2; cases h3
  rfl

/-- Witness for C10: same event with the flag flipped. -/
theorem shouldRevalidate_ignores_refresh_flag_witness :
    shouldRevalidate ⟨none, "/products/a", "/products/b", true⟩ =
      shouldRevalidate ⟨none, "/products/a", "/products/b", false⟩ :=
  shouldRevalidate_ignores_refresh_flag _ _ rfl rfl rfl

/-- Claim C2: the loader produces a `PageData` exactly when every critical
fetch fulfilled with usable data (LAYOUT_QUERY non-null, Okendo bootstrap
fulfilled); any critical rejection or null layout makes the whole request
fail, and the `Except` result type makes a partial `PageData` inexpressible.
The trace conjunct records that the critical join strictly precedes the
return of the page data. -/
theorem loader_ok_iff_critical_usable :
    (∀ (c : AppLoadContext) (r : String),
        (loader c r).isOk = criticalUsable c) ∧
      evIndex Ev.criticalJoin < evIndex Ev.returnPageData := by
  constructor
  · intro c r
    rcases c with ⟨env, i18n, lq, okd, ilo, cto, hdo, fto, sa⟩
    rcases lq with e | od
    · rfl
    · rcases od with _ | d
      · rfl
      · rcases okd with e2 | d2 <;> rfl
  · decide

/-- Claim C4 counterexample: in the loader's event trace the critical join
does not precede the issuing of the deferred fetches — in fact all four
deferred fetches are issued first (`loadDeferredData(args)` runs before
`await loadCriticalData(args)`). -/
theorem criticalJoin_not_before_deferred_issue :
    ¬ (evIndex Ev.criticalJoin < evIndex (Ev.issueDeferred Slot.isLoggedIn) ∧
       evIndex Ev.criticalJoin < evIndex (Ev.issueDeferred Slot.header) ∧
       evIndex Ev.criticalJoin < evIndex (Ev.issueDeferred Slot.footer) ∧
       evIndex Ev.criticalJoin < evIndex (Ev.issueDeferred Slot.cart)) := by
  decide

/-- Claim C4 amended: every deferred fetch is issued strictly before the
critical join (the source starts them first, "without blocking time to first
byte"), and the critical join strictly precedes the return of the page data. -/
theorem deferred_issue_precedes_criticalJoin :
    (evIndex (Ev.issueDeferred Slot.isLoggedIn) < evIndex Ev.criticalJoin ∧
     evIndex (Ev.issueDeferred Slot.header) < evIndex Ev.criticalJoin ∧
     evIndex (Ev.issueDeferred Slot.footer) < evIndex Ev.criticalJoin ∧
     evIndex (Ev.issueDeferred Slot.cart) < evIndex Ev.criticalJoin) ∧
    (evIndex (Ev.issueCritical Slot.layout) < evIndex Ev.criticalJoin ∧
     evIndex (Ev.issueCritical Slot.okendo) < evIndex Ev.criticalJoin) ∧
    evIndex Ev.criticalJoin < evIndex Ev.returnPageData := by
  decide

/-- Claim C1 counterexample: a rejected underlying deferred call is not
converted into a resolving handle — `loadDeferredData` returns the rejecting
handle itself, verbatim (no `.catch` is attached at the point the fetch is
issued). -/
theorem deferred_rejection_not_converted :
    (loadDeferredData
        { ctxBase with cartOutcome := .error "cart fetch failed" }).cart
      = .error "cart fetch failed" ∧
    ((loadDeferredData
        { ctxBase with cartOutcome := .error "cart fetch failed" }).cart).isOk
      = false := ⟨rfl, rfl⟩

/-- Claim C1 amended: `loadDeferredData` applies no failure conversion at all —
each deferred field is exactly the underlying call's handle, so a rejected
call yields a rejecting handle for that slot; but sibling deferred fields, the
critical bundle, and the success of the whole page request are unaffected by
the deferred outcomes. -/
theorem loadDeferredData_passthrough (c : AppLoadContext)
    (il : Handle Bool) (ct : Handle (Option Cart))
    (hd : Handle HeaderData) (ft : Handle FooterData) (r : String) :
    (loadDeferredData c).isLoggedIn = c.isLoggedInOutcome ∧
    (loadDeferredData c).isLoggedInPromise = c.isLoggedInOutcome ∧
    (loadDeferredData c).cart = c.cartOutcome ∧
    (loadDeferredData c).headerPromise = c.headerOutcome ∧
    (loadDeferredData c).footerPromise = c.footerOutcome ∧
    loadCriticalData
        { c with isLoggedInOutcome := il, cartOutcome := ct,
                 headerOutcome := hd, footerOutcome := ft } r
      = loadCriticalData c r ∧
    (loader
        { c with isLoggedInOutcome := il, cartOutcome := ct,
                 headerOutcome := hd, footerOutcome := ft } r).isOk
      = (loader c r).isOk := by
  rcases c with ⟨env, i18n, lq, okd, ilo, cto, hdo, fto, sa⟩
  refine ⟨rfl, rfl, rfl, rfl, rfl, rfl, ?_⟩
  rcases lq with e | od
  · rfl
  · rcases od with _ | d
    · rfl
    · rcases okd with e2 | d2 <;> rfl

/-- Claim C5: for a request from which no locale is resolvable from context,
the spec-modelled resolution that populates `storefront.i18n` yields the
default pair, and the loader passes it through unchanged
(`selectedLocale: storefront.i18n`), so the returned `PageData`'s
`selectedLocale` equals `DEFAULT_LOCALE`. -/
theorem selectedLocale_default_when_unresolvable
    (c : AppLoadContext) (r : String) (pd : PageData)
    (hres : c.i18n = resolveLocale none)
    (h : loader c r = .ok pd) :
    pd.selectedLocale = DEFAULT_LOCALE := by
  have hpass : pd.selectedLocale = c.i18n := by
    rcases c with ⟨env, i18n, lq, okd, ilo, cto, hdo, fto, sa⟩
    rcases lq with e | od
    · exact absurd h (by simp [loader, loadCriticalData, getLayoutData, bind, Except.bind])
    · rcases od with _ | d
      · exact absurd h (by simp [loader, loadCriticalData, getLayoutData, bind, Except.bind])
      · rcases okd with e2 | d2
        · exact absurd h
            (by simp [loader, loadCriticalData, getLayoutData, okendoCritical, bind, Except.bind])
        · simp [loader, loadCriticalData, getLayoutData, okendoCritical, bind,
            Except.bind, pure, Except.pure, loadDeferredData] at h
          subst h
          rfl
  rw [hpass, hres]
  rfl

/-- The `PageData` the loader produces on `ctxBase` (checked by `rfl` in the
C7 witness). -/
def pdBase : PageData :=
  { isLoggedIn := .ok true
    isLoggedInPromise := .ok true
    cart := .ok (some "cart-payload")
    headerPromise := .ok "header-payload"
    footerPromise := .ok "footer-payload"
    layout := ⟨"shop-payload"⟩
    seo := ⟨"shop-payload", "https://store.example.com/"⟩
    shop := "analytics-payload"
    consent := ⟨"checkout.example.com", "tok-123", true⟩
    selectedLocale := ⟨"FR", "CA"⟩
    okendoProviderData := "okendo-payload"
    env := ctxBase.env
    publicStoreDomain := "store.example.com"
    publicStoreSubdomain := "example.myshopify.com"
    publicStoreCdnStaticUrl := "https://cdn.example.com/static"
    publicImageFormatForProductOption := "webp"
    publicOkendoSubcriberId := "okendo-sub-1" }

/-- Concrete context whose locale arose from resolving an unavailable one. -/
def ctxDefaultLocale : AppLoadContext := { ctxBase with i18n := DEFAULT_LOCALE }

/-- The `PageData` the loader produces on `ctxDefaultLocale`. -/
def pdDefaultLocale : PageData := { pdBase with selectedLocale := DEFAULT_LOCALE }

/-- Witness for C5 at a context whose request carries no resolvable locale. -/
theorem selectedLocale_default_when_unresolvable_witness :
    pdDefaultLocale.selectedLocale = DEFAULT_LOCALE :=
  selectedLocale_default_when_unresolvable ctxDefaultLocale
    "https://store.example.com/" pdDefaultLocale rfl rfl

/-- Claim C6: when the layout query fulfills with no data, `getLayoutData`
produces exactly the assertion failure
`invariant(data, 'No data returned from Shopify API')`, and the whole loader
fails for the request — no `PageData` with an absent layout can be returned. -/
theorem layout_null_is_assertion_failure (c : AppLoadContext) (r : String)
    (h : c.layoutQueryOutcome = .ok none) :
    getLayoutData c
      = .error (.invariantViolation "No data returned from Shopify API") ∧
    (loader c r).isOk = false := by
  have h1 : getLayoutData c
      = .error (.invariantViolation "No data returned from Shopify API") := by
    unfold getLayoutData
    rw [h]
  refine ⟨h1, ?_⟩
  simp [loader, loadCriticalData, h1, bind, Except.bind, Except.isOk,
    Except.toBool]

/-- Witness for C6 at a concrete context whose layout query returns null. -/
theorem layout_null_is_assertion_failure_witness :
    getLayoutData { ctxBase with layoutQueryOutcome := .ok none }
      = .error (.invariantViolation "No data returned from Shopify API") ∧
    (loader { ctxBase with layoutQueryOutcome := .ok none }
        "https://store.example.com/").isOk = false :=
  layout_null_is_assertion_failure _ _ rfl

/-- Claim C7: every successful loader result carries all documented fields —
the critical bundle (layout, seo, shop analytics, consent, selectedLocale,
Okendo bootstrap data), the pending deferred handles (isLoggedIn, cart,
header, footer), and the environment pass-through fields including the public
store domain. -/
theorem pageData_contains_all_fields (c : AppLoadContext) (r : String)
    (pd : PageData) (ld : LayoutData) (okd : OkendoData)
    (hl : c.layoutQueryOutcome = .ok (some ld))
    (ho : c.okendoOutcome = .ok okd)
    (h : loader c r = .ok pd) :
    pd.layout = ld ∧
    pd.seo = seoRoot ld.shop r ∧
    pd.shop = c.shopAnalytics ∧
    pd.consent = ⟨c.env.PUBLIC_CHECKOUT_DOMAIN,
        c.env.PUBLIC_STOREFRONT_API_TOKEN, true⟩ ∧
    pd.selectedLocale = c.i18n ∧
    pd.okendoProviderData = okd ∧
    pd.isLoggedIn = c.isLoggedInOutcome ∧
    pd.isLoggedInPromise = c.isLoggedInOutcome ∧
    pd.cart = c.cartOutcome ∧
    pd.headerPromise = c.headerOutcome ∧
    pd.footerPromise = c.footerOutcome ∧
    pd.env = c.env ∧
    pd.publicStoreDomain = c.env.PUBLIC_STORE_DOMAIN ∧
    pd.publicStoreSubdomain = c.env.PUBLIC_SHOPIFY_STORE_DOMAIN ∧
    pd.publicStoreCdnStaticUrl = c.env.PUBLIC_STORE_CDN_STATIC_URL ∧
    pd.publicImageFormatForProductOption
      = c.env.PUBLIC_IMAGE_FORMAT_FOR_PRODUCT_OPTION ∧
    pd.publicOkendoSubcriberId = c.env.PUBLIC_OKENDO_SUBSCRIBER_ID := by
  rcases c with ⟨env, i18n, lq, okd2, ilo, cto, hdo, fto, sa⟩
  simp only [] at hl ho
  subst hl; subst ho
  simp [loader, loadCriticalData, getLayoutData, okendoCritical, bind,
    Except.bind, pure, Except.pure, loadDeferredData] at h
  subst h
  exact ⟨rfl, rfl, rfl, rfl, rfl, rfl, rfl, rfl, rfl, rfl, rfl, rfl, rfl,
    rfl, rfl, rfl, rfl⟩

/-- Witness for C7 at the fully populated base context. -/
theorem pageData_contains_all_fields_witness :
    pdBase.layout = (⟨"shop-payload"⟩ : LayoutData) ∧
    pdBase.seo = seoRoot "shop-payload" "https://store.example.com/" ∧
    pdBase.shop = ctxBase.shopAnalytics ∧
    pdBase.consent = ⟨ctxBase.env.PUBLIC_CHECKOUT_DOMAIN,
        ctxBase.env.PUBLIC_STOREFRONT_API_TOKEN, true⟩ ∧
    pdBase.selectedLocale = ctxBase.i18n ∧
    pdBase.okendoProviderData = "okendo-payload" ∧
    pdBase.isLoggedIn = ctxBase.isLoggedInOutcome ∧
    pdBase.isLoggedInPromise = ctxBase.isLoggedInOutcome ∧
    pdBase.cart = ctxBase.cartOutcome ∧
    pdBase.headerPromise = ctxBase.headerOutcome ∧
    pdBase.footerPromise = ctxBase.footerOutcome ∧
    pdBase.env = ctxBase.env ∧
    pdBase.publicStoreDomain = ctxBase.env.PUBLIC_STORE_DOMAIN ∧
    pdBase.publicStoreSubdomain = ctxBase.env.PUBLIC_SHOPIFY_STORE_DOMAIN ∧
    pdBase.publicStoreCdnStaticUrl = ctxBase.env.PUBLIC_STORE_CDN_STATIC_URL ∧
    pdBase.publicImageFormatForProductOption
      = ctxBase.env.PUBLIC_IMAGE_FORMAT_FOR_PRODUCT_OPTION ∧
    pdBase.publicOkendoSubcriberId = ctxBase.env.PUBLIC_OKENDO_SUBSCRIBER_ID :=
  pageData_contains_all_fields ctxBase "https://store.example.com/" pdBase
    ⟨"shop-payload"⟩ "okendo-payload" rfl rfl rfl

/-- Controlled/uncontrolled tracking is preserved by every single modal
interaction (the state space is finite, so this is checked exhaustively). -/
lemma modalStep_tracks : ∀ (s : ModalState) (op : ModalOp),
    (∀ b, s.isOpenProp = some b → s.isOpen = b) →
    ∀ b, (modalStep s op).isOpenProp = some b → (modalStep s op).isOpen = b := by
  decide

/-- Controlled tracking holds along any interaction sequence. -/
lemma foldl_modalStep_tracks : ∀ (ops : List ModalOp) (s : ModalState),
    (∀ b, s.isOpenProp = some b → s.isOpen = b) →
    ∀ b, (ops.foldl modalStep s).isOpenProp = some b →
      (ops.foldl modalStep s).isOpen = b := by
  intro ops
  induction ops with
  | nil => intro s h; exact h
  | cons op rest ih =>
      intro s h
      exact ih (modalStep s op) (modalStep_tracks s op h)

/-- Claim C9: when the caller supplies an explicit boolean override
(`isOpenProp`), `openModal` and `closeModal` leave the state untouched and the
visibility always equals the override value, along every interaction sequence
from mount; when no override is supplied, `openModal` and `closeModal` alone
govern visibility. -/
theorem ncModal_override_contract :
    (∀ s : ModalState, s.isOpenProp.isSome = true →
        openModal s = s ∧ closeModal s = s) ∧
    (∀ (p : Option Bool) (ops : List ModalOp) (b : Bool),
        (runModal p ops).isOpenProp = some b → (runModal p ops).isOpen = b) ∧
    (∀ s : ModalState, s.isOpenProp = none →
        (openModal s).isOpen = true ∧ (closeModal s).isOpen = false) := by
  refine ⟨by decide, ?_, by decide⟩
  intro p ops b h
  exact foldl_modalStep_tracks ops (initModal p)
    ((by decide : ∀ (q : Option Bool) b,
        (initModal q).isOpenProp = some b → (initModal q).isOpen = b) p) b h

/-- Witness for C9: a controlled modal (override `some true`) after an
open/close sequence, and an uncontrolled modal toggled by `openModal`. -/
theorem ncModal_override_contract_witness :
    (openModal ⟨some true, true⟩ = ⟨some true, true⟩ ∧
     closeModal ⟨some true, true⟩ = ⟨some true, true⟩) ∧
    (runModal (some true) [ModalOp.closeM, ModalOp.openM]).isOpen = true ∧
    ((openModal ⟨none, false⟩).isOpen = true ∧
     (closeModal ⟨none, false⟩).isOpen = false) :=
  ⟨ncModal_override_contract.1 ⟨some true, true⟩ rfl,
   ncModal_override_contract.2.1 (some true) [ModalOp.closeM, ModalOp.openM]
     true rfl,
   ncModal_override_contract.2.2 ⟨none, false⟩ rfl⟩

end ShopifyFrontend
